import Mathlib

/-!
Verification development for the lawfirm-data-pipeline repository.

The modelled components:
* the tri-state backlog store (placeEntry / company tables) and its
  first-unclaimed query (src/runner/websiteScraper.ts, syncCrm runner);
* the retry policies built from Schedule.exponential / Schedule.recurs;
* the claim-and-drain processing loops of the two runners;
* the browser resource pool of src/services/browser.ts (semaphore gate,
  acquireRelease finalizer, onBeforeClose hook, acquisition retry);
* the Activity retry combinator of the workflow activities;
* the idempotency-key functions of the three workflow definitions;
* the metrics reporter;
* the early-return branch of the ScrapeWebsite activity.
-/

namespace LawfirmPipeline

/-! ## Store data model

A backlog record of the placeEntry table.  The status column is tri-state:
none = unclaimed (SQL null), some true = succeeded, some false = failed. -/

structure PlaceEntry where
  id : String
  name : String
  url : String
  status : Option Bool
deriving DecidableEq, Repr

/-- The store query of fetchNextRecord: db.placeEntry.findFirst with
filter status = null — first record whose status is unclaimed. -/
def findNextUnclaimed (db : List PlaceEntry) : Option PlaceEntry :=
  db.find? (fun r => r.status.isNone)

/-- db.placeEntry.update with where id, data status := s. -/
def updateStatus (db : List PlaceEntry) (id : String) (s : Bool) : List PlaceEntry :=
  db.map (fun r => if r.id = id then { r with status := some s } else r)

/-! ## Retry policies

Schedule.exponential(base).pipe(Schedule.intersect(Schedule.recurs(n)))
retries a failing effect up to n times, waiting base * 2^(k-1) before the
k-th retry (the intersection keeps the exponential delays and the recurs
bound). -/

structure RetryPolicy where
  baseDelayMs : Nat
  maxRetries : Nat
deriving DecidableEq, Repr

/-- The empty-backlog policy of fetchNextRecord:
Schedule.exponential(Duration.seconds(30)) intersected with Schedule.recurs(5). -/
def emptyBacklogPolicy : RetryPolicy :=
  { baseDelayMs := 30000, maxRetries := 5 }

/-- The backoff waits (in ms) of a policy, in order: base * 2^k for the
(k+1)-th retry. -/
def RetryPolicy.delays (p : RetryPolicy) : List Nat :=
  (List.range p.maxRetries).map (fun k => p.baseDelayMs * 2 ^ k)

/-- NoMoreRecords, the tagged error raised by fetchNextRecord when the
query finds no unclaimed record. -/
inductive NoMoreRecordsError
  | mk
deriving DecidableEq, Repr

/-- Retry a query against a sequence of store snapshots (snap i is the
store contents seen by attempt i, counting attempts from 0): re-run while
the query keeps failing and retries remain.  Returns the outcome together
with the number of attempts made. -/
def retryFind (snap : Nat → List PlaceEntry) :
    Nat → Nat → Except NoMoreRecordsError PlaceEntry × Nat
  | 0, i =>
    match findNextUnclaimed (snap i) with
    | some r => (Except.ok r, i + 1)
    | none => (Except.error NoMoreRecordsError.mk, i + 1)
  | n + 1, i =>
    match findNextUnclaimed (snap i) with
    | some r => (Except.ok r, i + 1)
    | none => retryFind snap n (i + 1)

/-- fetchNextRecord before the catchTag: the findFirst query retried under
the empty-backlog policy. -/
def fetchNextRecordRetried (snap : Nat → List PlaceEntry) :
    Except NoMoreRecordsError PlaceEntry × Nat :=
  retryFind snap emptyBacklogPolicy.maxRetries 0

/-- fetchNextRecord: the retried query with NoMoreRecords caught
(Effect.catchTag) and converted into a successful null result.  The error
channel is gone: the function is total and never fails. -/
def fetchNextRecord (snap : Nat → List PlaceEntry) : Option PlaceEntry × Nat :=
  match fetchNextRecordRetried snap with
  | (Except.ok r, n) => (some r, n)
  | (Except.error _, n) => (none, n)

/-! ## The website-scraper processing loop -/

/-- Terminal outcome of one workflow invocation as seen by the loop:
success (within the 5-minute timeout), a workflow error (caught by
Effect.catchAll), or expiry of the Effect.timeout (TimeoutException). -/
inductive WorkflowOutcome
  | success
  | failure
  | timeout
deriving DecidableEq, Repr

structure Metrics where
  recordsProcessed : Nat
  recordsFailed : Nat
  recordsTimedOut : Nat
deriving DecidableEq, Repr

def Metrics.zero : Metrics :=
  { recordsProcessed := 0, recordsFailed := 0, recordsTimedOut := 0 }

structure LoopState where
  db : List PlaceEntry
  metrics : Metrics
  durationSamples : Nat
deriving DecidableEq, Repr

/-- One iteration of the website-scraper loop (processOneRecord): fetch the
next unclaimed record (the retried fetch over the current store); if none,
signal stop; otherwise count it processed, run the workflow under the
timeout, map the outcome to isCompleted (true / false / null on timeout),
write the status back unless it is null, and record a duration sample.
Returns the new state and the continue flag. -/
def processOneRecord (outcome : PlaceEntry → WorkflowOutcome) (st : LoopState) :
    LoopState × Bool :=
  match (fetchNextRecord (fun _ => st.db)).1 with
  | none => (st, false)
  | some r =>
    let m := { st.metrics with recordsProcessed := st.metrics.recordsProcessed + 1 }
    match outcome r with
    | WorkflowOutcome.success =>
        ({ db := updateStatus st.db r.id true
           metrics := m
           durationSamples := st.durationSamples + 1 }, true)
    | WorkflowOutcome.failure =>
        ({ db := updateStatus st.db r.id false
           metrics := { m with recordsFailed := m.recordsFailed + 1 }
           durationSamples := st.durationSamples + 1 }, true)
    | WorkflowOutcome.timeout =>
        ({ db := st.db
           metrics := { m with
             recordsFailed := m.recordsFailed + 1
             recordsTimedOut := m.recordsTimedOut + 1 }
           durationSamples := st.durationSamples + 1 }, true)

/-- Effect.loop with while state.continue: iterate processOneRecord until it
signals stop.  Fuel bounds the number of iterations we look at; the Bool
reports whether the loop terminated (reached its normal completion) within
the fuel. -/
def loopRun (outcome : PlaceEntry → WorkflowOutcome) :
    Nat → LoopState → LoopState × Bool
  | 0, st => (st, false)
  | n + 1, st =>
    match processOneRecord outcome st with
    | (st1, true) => loopRun outcome n st1
    | (st1, false) => (st1, true)

/-- Exactly n iterations of the loop body, ignoring the continue flag. -/
def loopIter (outcome : PlaceEntry → WorkflowOutcome) :
    Nat → LoopState → LoopState
  | 0, st => st
  | n + 1, st => loopIter outcome n (processOneRecord outcome st).1

/-! ## Effect result embedding

An Effect value either succeeds, fails with a typed error of its error
channel, or dies with an untyped defect.  Log output is tracked alongside
as a list of messages. -/

inductive EffResult (E : Type) (A : Type)
  | ok (a : A)
  | fail (e : E)
  | die (msg : String)
deriving DecidableEq, Repr

/-- Effect.promise: the promise is assumed not to reject; a rejection
becomes an untyped defect (die), never a typed failure. -/
def effPromise {E A : Type} : Except String A → EffResult E A
  | Except.ok a => EffResult.ok a
  | Except.error m => EffResult.die m

/-- Effect.tryPromise with a catch handler: a rejection becomes a typed
failure built by the handler. -/
def effTryPromise {E A : Type} (handler : String → E) : Except String A → EffResult E A
  | Except.ok a => EffResult.ok a
  | Except.error m => EffResult.fail (handler m)

/-- Effect.ignore: discard the outcome, success and typed failure alike,
without logging anything; defects still propagate.  The resulting effect
has an empty error channel. -/
def effIgnore {E : Type} : EffResult E Unit × List String → EffResult Empty Unit × List String
  | (EffResult.ok _, logs) => (EffResult.ok (), logs)
  | (EffResult.fail _, logs) => (EffResult.ok (), logs)
  | (EffResult.die m, logs) => (EffResult.die m, logs)

/-! ## Browser pool: release action (BrowserService.getContext)

The acquireRelease finalizer of getContext runs the optional onBeforeClose
hook, then closes the context; the whole sequence is piped through
Effect.orDie.  The hook has error channel never, so only success or a
defect can come out of it. -/

/-- Trace of one run of the getContext release action. -/
structure ReleaseTrace where
  hookRan : Bool
  closed : Bool
  logs : List String
  died : Bool
deriving DecidableEq, Repr

/-- The release action of getContext: run onBeforeClose when supplied (its
result and log output are given), then close the context.  A defect in the
hook aborts the sequence (orDie) before the close. -/
def releaseContext (hook : Option (EffResult Empty Unit × List String)) : ReleaseTrace :=
  match hook with
  | none => { hookRan := false, closed := true, logs := [], died := false }
  | some (EffResult.ok _, logs) =>
      { hookRan := true, closed := true, logs := logs, died := false }
  | some (EffResult.die m, logs) =>
      { hookRan := true, closed := false, logs := logs ++ [m], died := true }
  | some (EffResult.fail e, _) => nomatch e

/-- The onBeforeClose hook the callers supply (syncCrm.ts, the places
locator activity): persist the storage state via Effect.tryPromise, then
Effect.ignore the outcome so the close always happens.  save is the result
of context.storageState. -/
def onBeforeCloseHook (save : Except String Unit) : EffResult Empty Unit × List String :=
  effIgnore (effTryPromise (fun m => "Failed to save storage state: " ++ m) save, [])

/-! ## Scoped finalizers

Effect.acquireRelease registers a finalizer in the enclosing scope;
closing the scope runs every registered finalizer exactly once, whether
the body finished normally, failed, or died. -/

/-- One step of a scoped computation: either an acquisition that registers
the finalizer with the given id, or an ordinary action with the given
outcome. -/
inductive ScopeStep (E : Type)
  | acquire (finalizerId : Nat)
  | action (result : EffResult E Unit)

/-- Run the steps of a scoped computation: acquisitions push their
finalizer; a failing or dying action aborts the remaining steps.  Closing
the scope then runs the registered finalizers (returned here as the list
of finalizer ids that run, most recent first). -/
def runScoped {E : Type} : List (ScopeStep E) → List Nat → EffResult E Unit × List Nat
  | [], fins => (EffResult.ok (), fins)
  | ScopeStep.acquire i :: rest, fins => runScoped rest (i :: fins)
  | ScopeStep.action (EffResult.ok _) :: rest, fins => runScoped rest fins
  | ScopeStep.action (EffResult.fail e) :: _, fins => (EffResult.fail e, fins)
  | ScopeStep.action (EffResult.die m) :: _, fins => (EffResult.die m, fins)

/-- The acquire ids registered by a step list. -/
def acquiredIds {E : Type} : List (ScopeStep E) → List Nat
  | [] => []
  | ScopeStep.acquire i :: rest => i :: acquiredIds rest
  | ScopeStep.action _ :: rest => acquiredIds rest

/-! ## Browser pool: acquisition retry (C5)

getContext / getBrowserAgent pipe the scoped acquisition through
Effect.retry(Schedule.recurs(2)).  Effect.retry re-executes on typed
failures only; defects pass through untouched. -/

/-- Effect.retry(Schedule.recurs(n)): run the effect; on a typed failure
re-run it, up to n retries; a defect is not retried.  Returns the outcome
with the number of attempts made (op k is the outcome of attempt k + 1). -/
def retryRecurs {E A : Type} (op : Nat → EffResult E A) :
    Nat → Nat → EffResult E A × Nat
  | 0, i =>
    (op i, i + 1)
  | n + 1, i =>
    match op i with
    | EffResult.ok a => (EffResult.ok a, i + 1)
    | EffResult.die m => (EffResult.die m, i + 1)
    | EffResult.fail _ => retryRecurs op n (i + 1)

/-- The retry bound of the acquisition pipe: Schedule.recurs(2). -/
def acquisitionRetryBound : Nat := 2

/-- The acquisition step of getContext: browser.newContext wrapped in
Effect.promise, so a creation failure surfaces as a defect. -/
def getContextAcquire (creation : Nat → Except String Unit) (i : Nat) :
    EffResult Empty Unit :=
  effPromise (creation i)

/-- getContext acquisition under its retry pipe. -/
def getContextWithRetry (creation : Nat → Except String Unit) :
    EffResult Empty Unit × Nat :=
  retryRecurs (getContextAcquire creation) acquisitionRetryBound 0

/-! ## Semaphore concurrency gate (C4)

BrowserService and BrowserAgentService each create
Effect.makeSemaphore(10) and pipe the Effect.acquireRelease acquisition
through semaphore.withPermits(1).  withPermits holds its permit exactly
while the wrapped effect runs; Effect.acquireRelease completes as soon as
the acquire step finishes, registering the close action as a finalizer of
the enclosing scope.  The permit therefore covers only the creation of
the sub-resource and is released when creation completes, while the
handle stays open until the enclosing scope closes — outside the permit
region. -/

/-- The capacity passed to Effect.makeSemaphore in BrowserService. -/
def browserServiceSemaphoreCapacity : Nat := 10

/-- The capacity passed to Effect.makeSemaphore in BrowserAgentService. -/
def browserAgentServiceSemaphoreCapacity : Nat := 10

/-- Phase of one pool client task: not interacting with the pool,
suspended waiting for a permit inside withPermits, holding a permit while
its sub-resource is being created, or holding an open handle after
creation — the permit already given back, the context still open. -/
inductive PoolPhase
  | idle
  | waiting
  | creating
  | live
deriving DecidableEq, Repr

instance : BEq PoolPhase := ⟨fun a b => decide (a = b)⟩

instance : LawfulBEq PoolPhase where
  eq_of_beq h := by simpa [BEq.beq] using h
  rfl := by intro a; simp [BEq.beq]

/-- Number of tasks currently holding a semaphore permit: those whose
sub-resource creation is in flight. -/
def creatingCount (ts : List PoolPhase) : Nat := ts.count PoolPhase.creating

/-- Number of simultaneously live sub-resources: open handles whose
creation has completed and whose enclosing scope has not yet closed. -/
def liveHandles (ts : List PoolPhase) : Nat := ts.count PoolPhase.live

/-- One transition of the pool with semaphore capacity cap: a task enters
withPermits and suspends; a suspended task is granted a permit — only
when fewer than cap permits are held; a creation completes, which ends
the wrapped acquireRelease effect and hence gives the permit back while
the handle goes live; or an enclosing scope closes, running the finalizer
that closes the context. -/
inductive PoolStep (cap : Nat) : List PoolPhase → List PoolPhase → Prop
  | request (ts : List PoolPhase) (i : Nat) (h : ts.get? i = some PoolPhase.idle) :
      PoolStep cap ts (ts.set i PoolPhase.waiting)
  | grant (ts : List PoolPhase) (i : Nat) (h : ts.get? i = some PoolPhase.waiting)
      (hfree : creatingCount ts < cap) :
      PoolStep cap ts (ts.set i PoolPhase.creating)
  | created (ts : List PoolPhase) (i : Nat) (h : ts.get? i = some PoolPhase.creating) :
      PoolStep cap ts (ts.set i PoolPhase.live)
  | close (ts : List PoolPhase) (i : Nat) (h : ts.get? i = some PoolPhase.live) :
      PoolStep cap ts (ts.set i PoolPhase.idle)

/-- States reachable from the initial state (every task idle) under any
interleaving of the pool transitions. -/
inductive PoolReachable (cap : Nat) (n : Nat) : List PoolPhase → Prop
  | init : PoolReachable cap n (List.replicate n PoolPhase.idle)
  | step (ts ts1 : List PoolPhase) (hr : PoolReachable cap n ts)
      (hs : PoolStep cap ts ts1) : PoolReachable cap n ts1

/-! ## Activity retry (C6)

Activity.make(...).pipe(Activity.retry(times: n)) re-runs the execute
effect after a failure, up to n retries beyond the first attempt.
Activity.CurrentAttempt numbers attempts from 1. -/

/-- Run an activity operation under the retry pipe: retriesLeft retries
remain, k is the current attempt number.  On exhaustion the outcome of the
last attempt — its error — is surfaced unchanged. -/
def activityRun {E A : Type} (op : Nat → Except E A) :
    Nat → Nat → Except E A × Nat
  | 0, k => (op k, k)
  | n + 1, k =>
    match op k with
    | Except.ok a => (Except.ok a, k)
    | Except.error _ => activityRun op n (k + 1)

/-- Activity.retry(times): run the activity with times retries, attempts
numbered from 1.  Returns the surfaced outcome and the number of the
attempt on which the run ended. -/
def activityRetry {E A : Type} (times : Nat) (op : Nat → Except E A) :
    Except E A × Nat :=
  activityRun op times 1

/-- The total attempt budget of an activity configured with the given
retry times: the first attempt plus the retries. -/
def attemptBudget (times : Nat) : Nat := times + 1

/-- Activity.retry({ times: 1 }) on the ScrapeWebsite activity. -/
def scrapeWebsiteRetryTimes : Nat := 1

/-- Activity.retry({ times: 3 }) on the syncCrm activity. -/
def syncCrmRetryTimes : Nat := 3

/-! ## Idempotency keys (C7) -/

/-- Payload of PlaceWebsiteScraperWorkflow. -/
structure WsPayload where
  id : String
  name : Option String
  url : String
  address : Option String
  phone : Option String
  location : String
deriving DecidableEq, Repr

/-- Payload of SyncCrmplaceDetailWorkflow. -/
structure SyncPayload where
  id : String
deriving DecidableEq, Repr

/-- Payload of PlacesLocatorWorkflow. -/
structure LocatorPayload where
  id : String
  url : String
  location : String
deriving DecidableEq, Repr

/-- PlaceWebsiteScraperWorkflow idempotencyKey: ({ id }) => id + "-" +
new Date().toISOString().  nowIso is the current timestamp string. -/
def placeWebsiteScraperKey (p : WsPayload) (nowIso : String) : String :=
  p.id ++ "-" ++ nowIso

/-- SyncCrmplaceDetailWorkflow idempotencyKey: ({ id }) => id + "-" +
new Date().toISOString(). -/
def syncCrmKey (p : SyncPayload) (nowIso : String) : String :=
  p.id ++ "-" ++ nowIso

/-- PlacesLocatorWorkflow idempotencyKey: ({ id }) => id. -/
def placesLocatorKey (p : LocatorPayload) : String :=
  p.id

/-! ## The CRM-sync processing loop (C8)

The syncCrm runner drains the company table: the next record is the first
company without a crmSyncEvent and with an email address; a company with
no servicesOffered is disqualified — skipped, deleted, and its source
placeEntry reset to unclaimed. -/

/-- A derived company record as read by the syncCrm runner fetch (with its
crmSyncEvent and servicesOffered relations included). -/
structure Company where
  id : String
  name : String
  websiteUrl : String
  emailAddress : Option String
  servicesOffered : List String
  crmSyncEvent : Option Bool
deriving DecidableEq, Repr

structure CrmMetrics where
  recordsProcessed : Nat
  recordsFailed : Nat
  recordsSkipped : Nat
  recordsTimedOut : Nat
deriving DecidableEq, Repr

def CrmMetrics.zero : CrmMetrics :=
  { recordsProcessed := 0, recordsFailed := 0, recordsSkipped := 0, recordsTimedOut := 0 }

structure CrmState where
  companies : List Company
  placeEntries : List PlaceEntry
  metrics : CrmMetrics
  durationSamples : Nat
  workflowInvocations : List String
  compensationsRun : Nat
deriving DecidableEq, Repr

/-- The syncCrm runner fetch: db.company.findFirst with crmSyncEvent null
and emailAddress not null. -/
def findNextCrmRecord (companies : List Company) : Option Company :=
  companies.find? (fun c => c.crmSyncEvent.isNone && c.emailAddress.isSome)

/-- db.company.delete where id. -/
def deleteCompany (companies : List Company) (id : String) : List Company :=
  companies.filter (fun c => c.id ≠ id)

/-- db.placeEntry.update where name equals the company name and url equals
its websiteUrl, data status := null — reset the originating record to
unclaimed. -/
def resetPlaceEntry (db : List PlaceEntry) (name url : String) : List PlaceEntry :=
  db.map (fun r => if r.name = name && r.url = url then { r with status := none } else r)

/-- db.company.update where id, data crmSyncEvent create status. -/
def setCrmSyncEvent (companies : List Company) (id : String) (s : Bool) : List Company :=
  companies.map (fun c => if c.id = id then { c with crmSyncEvent := some s } else c)

/-- One iteration of the syncCrm loop (processOneRecord of the syncCrm
runner): fetch the next eligible company; if none, stop.  A company with
an empty servicesOffered list is skipped: recordsSkipped increments, the
company is deleted, the matching placeEntry status is reset to null, a
duration sample is recorded, and the loop continues — the workflow is not
invoked and no compensation runs.  Otherwise the workflow runs under the
3-minute timeout with the same outcome handling as the website-scraper
loop, writing a crmSyncEvent when the outcome is not null. -/
def crmProcessOneRecord (outcome : Company → WorkflowOutcome) (st : CrmState) :
    CrmState × Bool :=
  match findNextCrmRecord st.companies with
  | none => (st, false)
  | some r =>
    let m := { st.metrics with recordsProcessed := st.metrics.recordsProcessed + 1 }
    if r.servicesOffered.isEmpty then
      ({ st with
         companies := deleteCompany st.companies r.id
         placeEntries := resetPlaceEntry st.placeEntries r.name r.websiteUrl
         metrics := { m with recordsSkipped := m.recordsSkipped + 1 }
         durationSamples := st.durationSamples + 1 }, true)
    else
      match outcome r with
      | WorkflowOutcome.success =>
          ({ st with
             companies := setCrmSyncEvent st.companies r.id true
             metrics := m
             durationSamples := st.durationSamples + 1
             workflowInvocations := st.workflowInvocations ++ [r.id] }, true)
      | WorkflowOutcome.failure =>
          ({ st with
             companies := setCrmSyncEvent st.companies r.id false
             metrics := { m with recordsFailed := m.recordsFailed + 1 }
             durationSamples := st.durationSamples + 1
             workflowInvocations := st.workflowInvocations ++ [r.id] }, true)
      | WorkflowOutcome.timeout =>
          ({ st with
             metrics := { m with
               recordsFailed := m.recordsFailed + 1
               recordsTimedOut := m.recordsTimedOut + 1 }
             durationSamples := st.durationSamples + 1
             workflowInvocations := st.workflowInvocations ++ [r.id] }, true)

/-! ## Metrics reporter (C9)

metricsReporter = logMetrics.pipe(Effect.repeat(Schedule.spaced(30 s)),
Effect.catchAll(log the error)).  Effect.repeat re-runs the effect while
it succeeds and stops with the error on the first failure; the catchAll
sits outside the repeat. -/

/-- The spacing of the reporter schedule, in seconds. -/
def metricsReportIntervalSeconds : Nat := 30

/-- Effect.repeat(Schedule.spaced _) over a cycle oracle, observed for a
finite number of scheduled cycles: run cycle k; on success continue with
the next cycle, on a typed failure stop and propagate it.  Returns the
outcome and the number of cycles that ran. -/
def repeatSpaced (cycle : Nat → Except String Unit) :
    Nat → Nat → Except String Unit × Nat
  | 0, k => (Except.ok (), k)
  | n + 1, k =>
    match cycle k with
    | Except.ok _ => repeatSpaced cycle n (k + 1)
    | Except.error e => (Except.error e, k + 1)

/-- The metrics reporter over n scheduled cycles: the repeat, then the
catchAll that logs the error and succeeds.  Returns the number of cycles
that ran and the error-log lines. -/
def metricsReporterRun (cycle : Nat → Except String Unit) (n : Nat) :
    Nat × List String :=
  match repeatSpaced cycle n 0 with
  | (Except.ok _, k) => (k, [])
  | (Except.error e, k) => (k, ["Metrics logging error: " ++ e])

/-! ## ScrapeWebsite early return (C10) -/

/-- The shape of the data returned by agent.extract in the ScrapeWebsite
activity. -/
structure ExtractedData where
  emailAddress : Option String
  telephoneNumber : String
  address : String
  servicesOffered : List String
deriving DecidableEq, Repr

/-- Whether the character list l starts with the pattern sub. -/
def leadsWith : List Char → List Char → Bool
  | [], _ => true
  | _ :: _, [] => false
  | b :: sub, a :: l => decide (b = a) && leadsWith sub l

/-- Whether the pattern sub occurs somewhere inside the character list l. -/
def hasSegment : List Char → List Char → Bool
  | sub, [] => sub.isEmpty
  | sub, a :: l => leadsWith sub (a :: l) || hasSegment sub l

/-- JavaScript String.prototype.includes: substring containment. -/
def stringIncludes (s sub : String) : Bool :=
  hasSegment sub.toList s.toList

/-- The error type of the ScrapeWebsite activity. -/
structure ScrapeWebsiteError where
  message : String
deriving DecidableEq, Repr

/-- Build the company row that db.company.create inserts from the payload
and the extracted data. -/
def companyFrom (p : WsPayload) (data : ExtractedData) : Company :=
  { id := p.id
    name := p.name.getD "Default Name"
    websiteUrl := p.url
    emailAddress := data.emailAddress
    servicesOffered := data.servicesOffered.dedup
    crmSyncEvent := none }

/-- The tail of the ScrapeWebsite activity body after extraction: when the
extracted servicesOffered list is empty or the telephoneNumber contains
"+1", return early — successfully, with no value and no company created;
otherwise create the company record and return the extracted data. -/
def scrapeWebsiteFinish (p : WsPayload) (data : ExtractedData)
    (companies : List Company) :
    List Company × Except ScrapeWebsiteError (Option ExtractedData) :=
  if data.servicesOffered.length = 0 || stringIncludes data.telephoneNumber "+1" then
    (companies, Except.ok none)
  else
    (companies ++ [companyFrom p data], Except.ok (some data))

/-- How the loop sees the activity outcome: a successful activity makes the
workflow succeed, so the loop gets a success; a terminal activity error
fails the workflow, so the loop gets a failure. -/
def workflowOutcomeOf (act : Except ScrapeWebsiteError (Option ExtractedData)) :
    WorkflowOutcome :=
  match act with
  | Except.ok _ => WorkflowOutcome.success
  | Except.error _ => WorkflowOutcome.failure

/-! ## Concrete scenario inputs -/

/-- Backlog of the three-record scenario: three unclaimed rows. -/
def scenarioDb : List PlaceEntry :=
  [ { id := "r1", name := "Firm One", url := "https://one.example", status := none },
    { id := "r2", name := "Firm Two", url := "https://two.example", status := none },
    { id := "r3", name := "Firm Three", url := "https://three.example", status := none } ]

/-- Outcome oracle of the scenario: the first two records succeed, the
third times out. -/
def scenarioOutcome (r : PlaceEntry) : WorkflowOutcome :=
  if r.id = "r3" then WorkflowOutcome.timeout else WorkflowOutcome.success

/-- Initial loop state of the scenario. -/
def scenarioState : LoopState :=
  { db := scenarioDb, metrics := Metrics.zero, durationSamples := 0 }

/-- A sub-resource creation that rejects on every attempt. -/
def alwaysFailingCreation : Nat → Except String Unit :=
  fun _ => Except.error "browser launch failed"

/-- A reporting cycle that errors on its first run. -/
def failingFirstCycle : Nat → Except String Unit :=
  fun k => if k = 0 then Except.error "boom" else Except.ok ()

/-! ## Helper lemmas -/

theorem retryFind_all_empty (snap : Nat → List PlaceEntry)
    (h : ∀ j, findNextUnclaimed (snap j) = none) :
    ∀ n i, retryFind snap n i = (Except.error NoMoreRecordsError.mk, i + n + 1) := by
  intro n
  induction n with
  | zero =>
    intro i
    simp [retryFind, h i]
  | succ n ih =>
    intro i
    have hstep : retryFind snap (n + 1) i = retryFind snap n (i + 1) := by
      simp [retryFind, h i]
    rw [hstep, ih (i + 1)]
    congr 1
    omega

theorem fetchNextRecordRetried_all_empty (snap : Nat → List PlaceEntry)
    (h : ∀ j, findNextUnclaimed (snap j) = none) :
    fetchNextRecordRetried snap = (Except.error NoMoreRecordsError.mk, 6) := by
  unfold fetchNextRecordRetried
  exact retryFind_all_empty snap h emptyBacklogPolicy.maxRetries 0

theorem fetchNextRecord_all_empty (snap : Nat → List PlaceEntry)
    (h : ∀ j, findNextUnclaimed (snap j) = none) :
    fetchNextRecord snap = (none, 6) := by
  unfold fetchNextRecord
  rw [fetchNextRecordRetried_all_empty snap h]

theorem fetchNextRecord_const_found (db : List PlaceEntry) (r : PlaceEntry)
    (h : findNextUnclaimed db = some r) :
    fetchNextRecord (fun _ => db) = (some r, 1) := by
  unfold fetchNextRecord fetchNextRecordRetried
  have : retryFind (fun _ => db) emptyBacklogPolicy.maxRetries 0 = (Except.ok r, 1) := by
    simp [emptyBacklogPolicy, retryFind, h]
  rw [this]

theorem processOneRecord_stop (outcome : PlaceEntry → WorkflowOutcome)
    (st : LoopState) (h : findNextUnclaimed st.db = none) :
    processOneRecord outcome st = (st, false) := by
  unfold processOneRecord
  rw [fetchNextRecord_all_empty (fun _ => st.db) (fun _ => h)]

theorem loopRun_stop (outcome : PlaceEntry → WorkflowOutcome)
    (st : LoopState) (h : findNextUnclaimed st.db = none) (fuel : Nat) :
    loopRun outcome (fuel + 1) st = (st, true) := by
  unfold loopRun
  rw [processOneRecord_stop outcome st h]

/-! ## Claim theorems -/

/-- C1: when the store query for the next unclaimed record finds none, the
query is retried under the empty-backlog policy — exponential backoff with
a 30-second base and 5 retries; if the backlog is still empty after
exhaustion, fetchNextRecord succeeds with a null result (the NoMoreRecords
error is caught, never propagated: the catch removes the error channel),
and the processing loop then terminates as a normal, non-error
completion. -/
theorem fetch_empty_backlog_is_normal_completion
    (snap : Nat → List PlaceEntry)
    (hsnap : ∀ j, findNextUnclaimed (snap j) = none)
    (outcome : PlaceEntry → WorkflowOutcome) (st : LoopState)
    (hst : findNextUnclaimed st.db = none) (fuel : Nat) :
    emptyBacklogPolicy.baseDelayMs = 30000 ∧
    emptyBacklogPolicy.maxRetries = 5 ∧
    emptyBacklogPolicy.delays = [30000, 60000, 120000, 240000, 480000] ∧
    fetchNextRecordRetried snap =
      (Except.error NoMoreRecordsError.mk, emptyBacklogPolicy.maxRetries + 1) ∧
    fetchNextRecord snap = (none, emptyBacklogPolicy.maxRetries + 1) ∧
    loopRun outcome (fuel + 1) st = (st, true) := by
  refine ⟨rfl, rfl, by decide, ?_, ?_, loopRun_stop outcome st hst fuel⟩
  · exact fetchNextRecordRetried_all_empty snap hsnap
  · exact fetchNextRecord_all_empty snap hsnap

/-- Witness for C1 at a concretely empty backlog. -/
theorem fetch_empty_backlog_is_normal_completion_witness :
    fetchNextRecord (fun _ => ([] : List PlaceEntry)) = (none, 6) ∧
    loopRun (fun _ => WorkflowOutcome.success) 1
      { db := [], metrics := Metrics.zero, durationSamples := 0 } =
      ({ db := [], metrics := Metrics.zero, durationSamples := 0 }, true) := by
  have h := fetch_empty_backlog_is_normal_completion
    (fun _ => ([] : List PlaceEntry)) (fun _ => rfl)
    (fun _ => WorkflowOutcome.success)
    { db := [], metrics := Metrics.zero, durationSamples := 0 } rfl 0
  exact ⟨h.2.2.2.2.1, h.2.2.2.2.2⟩

theorem processOneRecord_timeout (outcome : PlaceEntry → WorkflowOutcome)
    (st : LoopState) (r : PlaceEntry)
    (hfind : findNextUnclaimed st.db = some r)
    (hto : outcome r = WorkflowOutcome.timeout) :
    processOneRecord outcome st =
      ({ db := st.db
         metrics := { recordsProcessed := st.metrics.recordsProcessed + 1
                      recordsFailed := st.metrics.recordsFailed + 1
                      recordsTimedOut := st.metrics.recordsTimedOut + 1 }
         durationSamples := st.durationSamples + 1 }, true) := by
  unfold processOneRecord
  rw [fetchNextRecord_const_found st.db r hfind]
  simp [hto]

theorem loopRun_unfold_cont (outcome : PlaceEntry → WorkflowOutcome)
    (st st1 : LoopState) (h : processOneRecord outcome st = (st1, true)) (n : Nat) :
    loopRun outcome (n + 1) st = loopRun outcome n st1 := by
  show (match processOneRecord outcome st with
    | (st2, true) => loopRun outcome n st2
    | (st2, false) => (st2, true)) = loopRun outcome n st1
  rw [h]

theorem loopRun_stuck (outcome : PlaceEntry → WorkflowOutcome)
    (db0 : List PlaceEntry) (r : PlaceEntry)
    (hfind : findNextUnclaimed db0 = some r)
    (hto : outcome r = WorkflowOutcome.timeout) :
    ∀ fuel st, st.db = db0 → (loopRun outcome fuel st).2 = false := by
  intro fuel
  induction fuel with
  | zero =>
    intro st h
    rfl
  | succ n ih =>
    intro st h
    have hf : findNextUnclaimed st.db = some r := by rw [h]; exact hfind
    rw [loopRun_unfold_cont outcome st _ (processOneRecord_timeout outcome st r hf hto) n]
    exact ih _ h

theorem scenario_never_terminates :
    ∀ fuel, (loopRun scenarioOutcome fuel scenarioState).2 = false := by
  have h1 : processOneRecord scenarioOutcome scenarioState =
      (loopIter scenarioOutcome 1 scenarioState, true) := by decide
  have h2 : processOneRecord scenarioOutcome (loopIter scenarioOutcome 1 scenarioState) =
      (loopIter scenarioOutcome 2 scenarioState, true) := by decide
  have h3 : processOneRecord scenarioOutcome (loopIter scenarioOutcome 2 scenarioState) =
      (loopIter scenarioOutcome 3 scenarioState, true) := by decide
  have hstuck := loopRun_stuck scenarioOutcome (loopIter scenarioOutcome 3 scenarioState).db
    { id := "r3", name := "Firm Three", url := "https://three.example", status := none }
    (by decide) (by decide)
  intro fuel
  match fuel with
  | 0 => rfl
  | 1 =>
    rw [loopRun_unfold_cont _ _ _ h1 0]
    rfl
  | 2 =>
    rw [loopRun_unfold_cont _ _ _ h1 1, loopRun_unfold_cont _ _ _ h2 0]
    rfl
  | n + 3 =>
    rw [loopRun_unfold_cont _ _ _ h1 (n + 2), loopRun_unfold_cont _ _ _ h2 (n + 1),
        loopRun_unfold_cont _ _ _ h3 n]
    exact hstuck n _ rfl

/-- C2 counterexample: in the three-record scenario the counters after the
three iterations are 3 / 1 / 1 as expected, but the timed-out row is still
unclaimed, so the next fetch re-claims it — a fourth iteration pushes
recordsProcessed to 4 and the loop has still not terminated after 50
iterations.  There is no terminated state with the claimed final
counters. -/
theorem scenario_counters_are_not_final :
    (loopIter scenarioOutcome 3 scenarioState).metrics =
      { recordsProcessed := 3, recordsFailed := 1, recordsTimedOut := 1 } ∧
    (fetchNextRecord (fun _ => (loopIter scenarioOutcome 3 scenarioState).db)).1 =
      some { id := "r3", name := "Firm Three", url := "https://three.example", status := none } ∧
    (loopIter scenarioOutcome 4 scenarioState).metrics.recordsProcessed = 4 ∧
    (loopRun scenarioOutcome 50 scenarioState).2 = false := by
  exact ⟨by decide, by decide, by decide, by decide⟩

/-- C2 amended: a timed-out workflow is treated as the distinguished null
outcome — recordsFailed and recordsTimedOut both increment, no status is
written back (the row stays unchanged), a duration sample is recorded and
the loop continues; after the three iterations of the three-record
scenario the counters are recordsProcessed = 3, recordsFailed = 1,
recordsTimedOut = 1, the two succeeded rows have status true and the
timed-out row is unchanged — but since the timed-out row is still
unclaimed, the loop re-claims it instead of observing an empty backlog,
and it never reaches normal termination while that row keeps timing
out. -/
theorem timeout_null_outcome_and_scenario
    (outcome : PlaceEntry → WorkflowOutcome) (st : LoopState) (r : PlaceEntry)
    (hfind : findNextUnclaimed st.db = some r)
    (hto : outcome r = WorkflowOutcome.timeout) :
    processOneRecord outcome st =
      ({ db := st.db
         metrics := { recordsProcessed := st.metrics.recordsProcessed + 1
                      recordsFailed := st.metrics.recordsFailed + 1
                      recordsTimedOut := st.metrics.recordsTimedOut + 1 }
         durationSamples := st.durationSamples + 1 }, true) ∧
    (loopIter scenarioOutcome 3 scenarioState).metrics =
      { recordsProcessed := 3, recordsFailed := 1, recordsTimedOut := 1 } ∧
    (loopIter scenarioOutcome 3 scenarioState).db =
      [ { id := "r1", name := "Firm One", url := "https://one.example", status := some true },
        { id := "r2", name := "Firm Two", url := "https://two.example", status := some true },
        { id := "r3", name := "Firm Three", url := "https://three.example", status := none } ] ∧
    (loopIter scenarioOutcome 3 scenarioState).durationSamples = 3 ∧
    (∀ fuel, (loopRun scenarioOutcome fuel scenarioState).2 = false) := by
  exact ⟨processOneRecord_timeout outcome st r hfind hto, by decide, by decide, by decide,
    scenario_never_terminates⟩

/-- Witness for the amended C2 at the scenario backlog with an
always-timing-out workflow. -/
theorem timeout_null_outcome_and_scenario_witness :
    processOneRecord (fun _ => WorkflowOutcome.timeout) scenarioState =
      ({ db := scenarioDb
         metrics := { recordsProcessed := 1, recordsFailed := 1, recordsTimedOut := 1 }
         durationSamples := 1 }, true) := by
  have h := timeout_null_outcome_and_scenario (fun _ => WorkflowOutcome.timeout) scenarioState
    { id := "r1", name := "Firm One", url := "https://one.example", status := none }
    (by decide) rfl
  exact h.1

theorem runScoped_count {E : Type} (i : Nat) :
    ∀ (steps : List (ScopeStep E)) (fins : List Nat),
      i ∉ acquiredIds steps →
      (runScoped steps fins).2.count i = fins.count i := by
  intro steps
  induction steps with
  | nil =>
    intro fins h
    rfl
  | cons s rest ih =>
    intro fins h
    cases s with
    | acquire j =>
      simp only [acquiredIds, List.mem_cons, not_or] at h
      obtain ⟨hij, hrest⟩ := h
      have hstep : runScoped (ScopeStep.acquire j :: rest) fins = runScoped rest (j :: fins) := rfl
      rw [hstep, ih (j :: fins) hrest]
      simp [List.count_cons, hij]
    | action r =>
      simp only [acquiredIds] at h
      cases r with
      | ok a => exact ih fins h
      | fail e => rfl
      | die m => rfl

/-- C3 counterexample: at a concretely failing onBeforeClose hook the error
is swallowed and the close still runs, but the release trace carries no log
entry at all — the hook error is not logged, refuting the logged-and-
swallowed wording of the claim. -/
theorem hook_error_produces_no_log :
    releaseContext (some (onBeforeCloseHook (Except.error "disk full"))) =
      { hookRan := true, closed := true, logs := [], died := false } := rfl

/-- C3 amended: the release action runs exactly once per successful acquire,
whatever the remaining steps of the scope do — finish, fail, or die
mid-use; an error raised by the caller-supplied onBeforeClose hook is
silently swallowed (Effect.ignore — no log entry is produced) before it
reaches the release action, so it never prevents the context from being
closed. -/
theorem release_exactly_once_hook_error_swallowed
    (rest : List (ScopeStep Unit)) (h : 0 ∉ acquiredIds rest) (msg : String) :
    (runScoped (ScopeStep.acquire 0 :: rest) []).2.count 0 = 1 ∧
    (∀ save, (releaseContext (some (onBeforeCloseHook save))).closed = true) ∧
    (releaseContext (some (onBeforeCloseHook (Except.error msg)))).logs = [] ∧
    (releaseContext (some (onBeforeCloseHook (Except.error msg)))).died = false := by
  refine ⟨?_, ?_, rfl, rfl⟩
  · have hstep : runScoped (ScopeStep.acquire 0 :: rest) ([] : List Nat) =
        runScoped rest [0] := rfl
    rw [hstep, runScoped_count 0 rest [0] h]
    rfl
  · intro save
    cases save with
    | ok u => rfl
    | error m => rfl

/-- Witness for the amended C3: a scope whose consuming step fails mid-use
still runs the sole finalizer exactly once, and a failing hook still lets
the close happen. -/
theorem release_exactly_once_hook_error_swallowed_witness :
    (runScoped (ScopeStep.acquire 0 :: [ScopeStep.action (EffResult.fail ())]) []).2.count 0 = 1 ∧
    (releaseContext (some (onBeforeCloseHook (Except.error "disk full")))).closed = true := by
  have h := release_exactly_once_hook_error_swallowed
    [ScopeStep.action (EffResult.fail ())] (by decide) "disk full"
  exact ⟨h.1, h.2.1 (Except.error "disk full")⟩

theorem pool_count_set_of_ne (a b c : PoolPhase) (hc : c ≠ a) (hb : b ≠ a) :
    ∀ (l : List PoolPhase) (i : Nat), l.get? i = some c →
      (l.set i b).count a = l.count a := by
  intro l
  induction l with
  | nil =>
    intro i h
    simp at h
  | cons x xs ih =>
    intro i h
    cases i with
    | zero =>
      have hx : x = c := by simpa using h
      subst hx
      simp [List.count_cons, hb, hc, Ne.symm hb, Ne.symm hc]
    | succ j =>
      have h2 : xs.get? j = some c := by simpa using h
      have hset : (x :: xs).set (j + 1) b = x :: xs.set j b := rfl
      have := ih j h2
      simp only [hset, List.count_cons] at *
      omega

theorem pool_count_set_to (a c : PoolPhase) (hc : c ≠ a) :
    ∀ (l : List PoolPhase) (i : Nat), l.get? i = some c →
      (l.set i a).count a = l.count a + 1 := by
  intro l
  induction l with
  | nil =>
    intro i h
    simp at h
  | cons x xs ih =>
    intro i h
    cases i with
    | zero =>
      have hx : x = c := by simpa using h
      subst hx
      simp [List.count_cons, hc, Ne.symm hc]
    | succ j =>
      have h2 : xs.get? j = some c := by simpa using h
      have hset : (x :: xs).set (j + 1) a = x :: xs.set j a := rfl
      have := ih j h2
      simp only [hset, List.count_cons] at *
      omega

theorem pool_count_set_from (a b : PoolPhase) (hb : b ≠ a) :
    ∀ (l : List PoolPhase) (i : Nat), l.get? i = some a →
      (l.set i b).count a + 1 = l.count a := by
  intro l
  induction l with
  | nil =>
    intro i h
    simp at h
  | cons x xs ih =>
    intro i h
    cases i with
    | zero =>
      have hx : x = a := by simpa using h
      subst hx
      simp [List.count_cons, hb, Ne.symm hb]
    | succ j =>
      have h2 : xs.get? j = some a := by simpa using h
      have hset : (x :: xs).set (j + 1) b = x :: xs.set j b := rfl
      have := ih j h2
      simp only [hset, List.count_cons] at *
      omega

theorem pool_count_replicate_idle (a : PoolPhase) (ha : a ≠ PoolPhase.idle) :
    ∀ n : Nat, (List.replicate n PoolPhase.idle).count a = 0 := by
  intro n
  induction n with
  | zero => rfl
  | succ k ih =>
    simp only [List.replicate, List.count_cons] at *
    simp [ih, ha, Ne.symm ha]

theorem pool_get_set_self (a : PoolPhase) :
    ∀ (l : List PoolPhase) (i : Nat) (c : PoolPhase), l.get? i = some c →
      (l.set i a).get? i = some a := by
  intro l
  induction l with
  | nil =>
    intro i c h
    simp at h
  | cons x xs ih =>
    intro i c h
    cases i with
    | zero => rfl
    | succ j =>
      have h2 : xs.get? j = some c := by simpa using h
      simpa using ih j c h2

theorem pool_step_creating_count (cap : Nat) (ts ts1 : List PoolPhase)
    (hs : PoolStep cap ts ts1) :
    creatingCount ts1 = creatingCount ts ∨
    (creatingCount ts1 = creatingCount ts + 1 ∧ creatingCount ts < cap) ∨
    creatingCount ts1 + 1 = creatingCount ts := by
  cases hs with
  | request i hi =>
    exact Or.inl (pool_count_set_of_ne PoolPhase.creating PoolPhase.waiting PoolPhase.idle
      (by simp) (by simp) ts i hi)
  | grant i hi hfree =>
    exact Or.inr (Or.inl
      ⟨pool_count_set_to PoolPhase.creating PoolPhase.waiting (by simp) ts i hi, hfree⟩)
  | created i hi =>
    exact Or.inr (Or.inr
      (pool_count_set_from PoolPhase.creating PoolPhase.live (by simp) ts i hi))
  | close i hi =>
    exact Or.inl (pool_count_set_of_ne PoolPhase.creating PoolPhase.idle PoolPhase.live
      (by simp) (by simp) ts i hi)

theorem pool_creating_le (cap n : Nat) (ts : List PoolPhase)
    (h : PoolReachable cap n ts) : creatingCount ts ≤ cap := by
  induction h with
  | init =>
    have h0 := pool_count_replicate_idle PoolPhase.creating (by simp) n
    unfold creatingCount
    omega
  | step us us1 hr hs ih =>
    rcases pool_step_creating_count cap us us1 hs with h1 | h2 | h3
    · omega
    · omega
    · omega

theorem pool_advance (cap n : Nat) (ts : List PoolPhase) (i : Nat)
    (hr : PoolReachable cap n ts) (hi : ts.get? i = some PoolPhase.idle)
    (hfree : creatingCount ts < cap) :
    PoolReachable cap n (ts.set i PoolPhase.live) := by
  have h1 := PoolReachable.step ts _ hr (PoolStep.request ts i hi)
  have hw : (ts.set i PoolPhase.waiting).get? i = some PoolPhase.waiting :=
    pool_get_set_self PoolPhase.waiting ts i PoolPhase.idle hi
  have hc1 : creatingCount (ts.set i PoolPhase.waiting) = creatingCount ts :=
    pool_count_set_of_ne PoolPhase.creating PoolPhase.waiting PoolPhase.idle
      (by simp) (by simp) ts i hi
  have h2 := PoolReachable.step _ _ h1
    (PoolStep.grant (ts.set i PoolPhase.waiting) i hw (by rw [hc1]; exact hfree))
  rw [List.set_set] at h2
  have hcr : (ts.set i PoolPhase.creating).get? i = some PoolPhase.creating :=
    pool_get_set_self PoolPhase.creating ts i PoolPhase.idle hi
  have h3 := PoolReachable.step _ _ h2
    (PoolStep.created (ts.set i PoolPhase.creating) i hcr)
  rw [List.set_set] at h3
  exact h3

/-- C4 counterexample: with both semaphores at capacity 10, an
interleaving in which eleven tasks each enter withPermits, create their
sub-resource, and give the permit back at creation end — while every one
of their enclosing scopes stays open — reaches a state with eleven
simultaneously live sub-resources.  The number of live handles is not
bounded by the semaphore, refuting the claim. -/
theorem eleven_live_handles_reachable :
    PoolReachable browserServiceSemaphoreCapacity 11
      (List.replicate 11 PoolPhase.live) ∧
    liveHandles (List.replicate 11 PoolPhase.live) = 11 ∧
    browserServiceSemaphoreCapacity = 10 := by
  refine ⟨?_, by decide, rfl⟩
  have h0 : PoolReachable browserServiceSemaphoreCapacity 11
      (List.replicate 11 PoolPhase.idle) := PoolReachable.init
  have h1 := pool_advance _ _ _ 0 h0 (by decide) (by decide)
  have h2 := pool_advance _ _ _ 1 h1 (by decide) (by decide)
  have h3 := pool_advance _ _ _ 2 h2 (by decide) (by decide)
  have h4 := pool_advance _ _ _ 3 h3 (by decide) (by decide)
  have h5 := pool_advance _ _ _ 4 h4 (by decide) (by decide)
  have h6 := pool_advance _ _ _ 5 h5 (by decide) (by decide)
  have h7 := pool_advance _ _ _ 6 h6 (by decide) (by decide)
  have h8 := pool_advance _ _ _ 7 h7 (by decide) (by decide)
  have h9 := pool_advance _ _ _ 8 h8 (by decide) (by decide)
  have h10 := pool_advance _ _ _ 9 h9 (by decide) (by decide)
  have h11 := pool_advance _ _ _ 10 h10 (by decide) (by decide)
  exact h11

/-- C4 amended: each acquisition takes one permit from a counting
semaphore of size 10, but withPermits(1) wraps only the acquireRelease
acquisition, which completes when the sub-resource is created — the close
is a finalizer of the enclosing scope — so the permit is held only for
the duration of creation, not for the lifetime of the handle: in every
reachable state at most 10 sub-resource creations are in flight, no step
increases that count once 10 permits are held, and a caller with no
available permit suspends until one is given back; the number of
simultaneously live sub-resources, however, is not bounded by 10. -/
theorem pool_semaphore_bounds_creations_not_live_handles
    (n : Nat) (ts : List PoolPhase)
    (h : PoolReachable browserServiceSemaphoreCapacity n ts) :
    browserServiceSemaphoreCapacity = 10 ∧
    browserAgentServiceSemaphoreCapacity = 10 ∧
    creatingCount ts ≤ 10 ∧
    (∀ us us1 : List PoolPhase, PoolStep 10 us us1 → 10 ≤ creatingCount us →
      creatingCount us1 ≤ creatingCount us) := by
  refine ⟨rfl, rfl, pool_creating_le _ n ts h, ?_⟩
  intro us us1 hs hfull
  rcases pool_step_creating_count 10 us us1 hs with h1 | h2 | h3
  · omega
  · omega
  · omega

/-- Witness for the amended C4 at the two-task initial state. -/
theorem pool_semaphore_bounds_creations_not_live_handles_witness :
    creatingCount (List.replicate 2 PoolPhase.idle) ≤ 10 := by
  have h := pool_semaphore_bounds_creations_not_live_handles 2
    (List.replicate 2 PoolPhase.idle) PoolReachable.init
  exact h.2.2.1

/-- C5 counterexample: with a sub-resource creation that always rejects,
getContext does not fail with a typed acquisition error after 2 attempts:
the Effect.promise wrapper turns the rejection into an untyped defect,
the retry combinator does not re-run defects, and the call dies on the
very first attempt — an untyped crash, and no ResourceAcquisitionError
type exists anywhere in the code. -/
theorem acquisition_failure_is_untyped_and_unretried :
    getContextWithRetry alwaysFailingCreation =
      (EffResult.die "browser launch failed", 1) := rfl

/-- C5 amended: the acquisition pipe retries under Schedule.recurs(2) — up
to 2 retries, hence 3 attempts, and only for typed failures; because
sub-resource creation is wrapped in Effect.promise, a creation failure is
an untyped defect that is never retried: when creation always fails the
call dies on the first attempt with an untyped crash instead of a typed
ResourceAcquisitionError. -/
theorem acquisition_retry_only_retries_typed_failures
    (creation : Nat → Except String Unit) (msg : Nat → String)
    (hc : ∀ i, creation i = Except.error (msg i))
    (op : Nat → EffResult String Unit) (err : Nat → String)
    (hop : ∀ i, op i = EffResult.fail (err i)) :
    acquisitionRetryBound = 2 ∧
    getContextWithRetry creation = (EffResult.die (msg 0), 1) ∧
    retryRecurs op acquisitionRetryBound 0 = (EffResult.fail (err 2), 3) := by
  refine ⟨rfl, ?_, ?_⟩
  · show retryRecurs (getContextAcquire creation) 2 0 = (EffResult.die (msg 0), 1)
    simp [retryRecurs, getContextAcquire, effPromise, hc 0]
  · show retryRecurs op 2 0 = (EffResult.fail (err 2), 3)
    simp [retryRecurs, hop 0, hop 1, hop 2]

/-- Witness for the amended C5: the always-rejecting creation dies on
attempt one; an always-typed-failing operation is retried to 3 attempts. -/
theorem acquisition_retry_only_retries_typed_failures_witness :
    getContextWithRetry alwaysFailingCreation =
      (EffResult.die "browser launch failed", 1) ∧
    retryRecurs (fun _ => (EffResult.fail "nope" : EffResult String Unit))
      acquisitionRetryBound 0 = (EffResult.fail "nope", 3) := by
  have h := acquisition_retry_only_retries_typed_failures alwaysFailingCreation
    (fun _ => "browser launch failed") (fun _ => rfl)
    (fun _ => EffResult.fail "nope") (fun _ => "nope") (fun _ => rfl)
  exact ⟨h.2.1, h.2.2⟩

theorem activityRun_all_fail {E A : Type} (op : Nat → Except E A) (e : Nat → E)
    (h : ∀ j, op j = Except.error (e j)) :
    ∀ n k, activityRun op n k = (Except.error (e (k + n)), k + n) := by
  intro n
  induction n with
  | zero =>
    intro k
    simp [activityRun, h k]
  | succ n ih =>
    intro k
    have hstep : activityRun op (n + 1) k = activityRun op n (k + 1) := by
      simp [activityRun, h k]
    rw [hstep, ih (k + 1)]
    have harith : k + 1 + n = k + (n + 1) := by omega
    rw [harith]

theorem activityRun_first_success {E A : Type} (op : Nat → Except E A) (a : A)
    (err : Nat → E) :
    ∀ n k k0, k ≤ k0 → k0 ≤ k + n → op k0 = Except.ok a →
      (∀ j, k ≤ j → j < k0 → op j = Except.error (err j)) →
      activityRun op n k = (Except.ok a, k0) := by
  intro n
  induction n with
  | zero =>
    intro k k0 h1 h2 hk0 hbefore
    have hke : k0 = k := by omega
    subst hke
    simp [activityRun, hk0]
  | succ n ih =>
    intro k k0 h1 h2 hk0 hbefore
    by_cases hke : k0 = k
    · subst hke
      simp [activityRun, hk0]
    · have hlt : k < k0 := by omega
      have hfk : op k = Except.error (err k) := hbefore k le_rfl hlt
      have hstep : activityRun op (n + 1) k = activityRun op n (k + 1) := by
        simp [activityRun, hfk]
      rw [hstep]
      exact ih (k + 1) k0 (by omega) (by omega) hk0 (fun j hj1 hj2 => hbefore j (by omega) hj2)

/-- C6: an activity whose retry pipe is configured with the given times has
a total attempt budget N = times + 1; when its operation fails on every
try it fails terminally after exactly N attempts, surfacing the error of
the last attempt to the enclosing workflow, and it never runs an attempt
beyond that budget; when the operation first succeeds on the k-th try with
k ≤ N, the activity succeeds on attempt k.  Concretely, the ScrapeWebsite
activity is configured with times = 1 and the syncCrm activity with
times = 3. -/
theorem activity_retry_budget_exact
    {E A : Type} (times : Nat) (op opS : Nat → Except E A)
    (e err : Nat → E) (a : A) (k : Nat)
    (hfail : ∀ j, op j = Except.error (e j))
    (hk1 : 1 ≤ k) (hkN : k ≤ attemptBudget times)
    (hsucc : opS k = Except.ok a)
    (hbefore : ∀ j, 1 ≤ j → j < k → opS j = Except.error (err j)) :
    scrapeWebsiteRetryTimes = 1 ∧
    syncCrmRetryTimes = 3 ∧
    activityRetry times op =
      (Except.error (e (attemptBudget times)), attemptBudget times) ∧
    activityRetry times opS = (Except.ok a, k) := by
  refine ⟨rfl, rfl, ?_, ?_⟩
  · have h := activityRun_all_fail op e hfail times 1
    have harith : 1 + times = attemptBudget times := by
      unfold attemptBudget
      omega
    rw [activityRetry, h, harith]
  · have hkN2 : k ≤ 1 + times := by
      unfold attemptBudget at hkN
      omega
    exact activityRun_first_success opS a err times 1 k hk1 hkN2 hsucc hbefore

/-- Witness for C6 with times = 1: an always-failing operation makes
exactly 2 attempts and surfaces the second error; an operation that first
succeeds on attempt 2 succeeds there. -/
theorem activity_retry_budget_exact_witness :
    activityRetry 1 (fun j => (Except.error j : Except Nat Unit)) =
      (Except.error 2, 2) ∧
    activityRetry 1
      (fun j => if j = 2 then Except.ok () else (Except.error j : Except Nat Unit)) =
      (Except.ok (), 2) := by
  have h := activity_retry_budget_exact 1
    (fun j => (Except.error j : Except Nat Unit))
    (fun j => if j = 2 then Except.ok () else (Except.error j : Except Nat Unit))
    (fun j => j) (fun j => j) () 2
    (fun j => rfl) (by decide) (by decide)
    rfl
    (fun j hj1 hj2 => by
      have hj : j = 1 := by omega
      subst hj
      rfl)
  exact ⟨h.2.2.1, h.2.2.2⟩

theorem string_append_right_cancel (a t1 t2 : String) (h : a ++ t1 = a ++ t2) :
    t1 = t2 := by
  have hd : (a ++ t1).data = (a ++ t2).data := congrArg String.data h
  simp only [String.data_append] at hd
  have hc : t1.data = t2.data := List.append_cancel_left hd
  cases t1
  cases t2
  exact congrArg String.mk (by simpa using hc)

/-- C7: the PlaceWebsiteScraper and SyncCrmplaceDetail workflow definitions
derive the idempotency key by appending the current timestamp to the
record id, so the same payload at two different times yields two distinct
keys — the key is not a function of the payload alone, and de-duplication
across retries of the same logical record is disabled; the PlacesLocator
workflow derives the key as exactly the payload id, so equal payload ids
always yield equal keys. -/
theorem idempotency_keys_two_timestamped_one_stable
    (p : WsPayload) (q : SyncPayload) (t1 t2 : String) (hne : t1 ≠ t2)
    (r1 r2 : LocatorPayload) (hid : r1.id = r2.id) :
    placeWebsiteScraperKey p t1 ≠ placeWebsiteScraperKey p t2 ∧
    syncCrmKey q t1 ≠ syncCrmKey q t2 ∧
    placesLocatorKey r1 = r1.id ∧
    placesLocatorKey r1 = placesLocatorKey r2 := by
  refine ⟨?_, ?_, rfl, hid⟩
  · intro h
    exact hne (string_append_right_cancel (p.id ++ "-") t1 t2 h)
  · intro h
    exact hne (string_append_right_cancel (q.id ++ "-") t1 t2 h)

/-- Witness for C7 at one concrete payload and two concrete timestamps. -/
theorem idempotency_keys_two_timestamped_one_stable_witness :
    placeWebsiteScraperKey
        { id := "rec-1", name := none, url := "https://one.example",
          address := none, phone := none, location := "London" }
        "2026-01-01T00:00:00.000Z" ≠
      placeWebsiteScraperKey
        { id := "rec-1", name := none, url := "https://one.example",
          address := none, phone := none, location := "London" }
        "2026-01-01T00:00:01.000Z" ∧
    placesLocatorKey { id := "rec-1", url := "u", location := "l" } = "rec-1" := by
  have h := idempotency_keys_two_timestamped_one_stable
    { id := "rec-1", name := none, url := "https://one.example",
      address := none, phone := none, location := "London" }
    { id := "rec-1" }
    "2026-01-01T00:00:00.000Z" "2026-01-01T00:00:01.000Z" (by decide)
    { id := "rec-1", url := "u", location := "l" }
    { id := "rec-1", url := "u", location := "l" } rfl
  exact ⟨h.1, h.2.2.1⟩

/-- C8: when the next fetched CRM record has an empty servicesOffered list,
the loop increments recordsSkipped, deletes the derived company record,
resets the originating placeEntry status to null (unclaimed) rather than
marking it failed, records a duration sample, does not invoke the
workflow, runs no compensation, leaves recordsFailed unchanged, and
continues to the next iteration. -/
theorem crm_disqualified_record_skip_path
    (outcome : Company → WorkflowOutcome) (st : CrmState) (r : Company)
    (hfind : findNextCrmRecord st.companies = some r)
    (hdq : r.servicesOffered = []) :
    crmProcessOneRecord outcome st =
      ({ st with
         companies := deleteCompany st.companies r.id
         placeEntries := resetPlaceEntry st.placeEntries r.name r.websiteUrl
         metrics := { st.metrics with
           recordsProcessed := st.metrics.recordsProcessed + 1
           recordsSkipped := st.metrics.recordsSkipped + 1 }
         durationSamples := st.durationSamples + 1 }, true) ∧
    (∀ c ∈ deleteCompany st.companies r.id, c.id ≠ r.id) ∧
    (∀ pe ∈ resetPlaceEntry st.placeEntries r.name r.websiteUrl,
       pe.name = r.name → pe.url = r.websiteUrl → pe.status = none) ∧
    (crmProcessOneRecord outcome st).1.workflowInvocations = st.workflowInvocations ∧
    (crmProcessOneRecord outcome st).1.compensationsRun = st.compensationsRun ∧
    (crmProcessOneRecord outcome st).1.metrics.recordsFailed = st.metrics.recordsFailed := by
  have hstep : crmProcessOneRecord outcome st =
      ({ st with
         companies := deleteCompany st.companies r.id
         placeEntries := resetPlaceEntry st.placeEntries r.name r.websiteUrl
         metrics := { st.metrics with
           recordsProcessed := st.metrics.recordsProcessed + 1
           recordsSkipped := st.metrics.recordsSkipped + 1 }
         durationSamples := st.durationSamples + 1 }, true) := by
    unfold crmProcessOneRecord
    rw [hfind]
    simp [hdq]
  refine ⟨hstep, ?_, ?_, by rw [hstep], by rw [hstep], by rw [hstep]⟩
  · intro c hc
    simp only [deleteCompany, List.mem_filter] at hc
    simpa using hc.2
  · intro pe hpe hname hurl
    simp only [resetPlaceEntry, List.mem_map] at hpe
    obtain ⟨x, hx, hxe⟩ := hpe
    by_cases hcond : x.name = r.name ∧ x.url = r.websiteUrl
    · rw [if_pos (by simp [hcond.1, hcond.2])] at hxe
      rw [← hxe]
    · have hfalse : ¬(x.name = r.name && x.url = r.websiteUrl) = true := by
        simp only [Bool.and_eq_true, decide_eq_true_eq]
        exact fun hc => hcond hc
      rw [if_neg hfalse] at hxe
      subst hxe
      exact absurd ⟨hname, hurl⟩ hcond

/-- Witness for C8 at a one-company store whose record has no services. -/
theorem crm_disqualified_record_skip_path_witness :
    crmProcessOneRecord (fun _ => WorkflowOutcome.success)
      { companies := [{ id := "c1", name := "Firm One",
                        websiteUrl := "https://one.example",
                        emailAddress := some "a@b.example",
                        servicesOffered := [], crmSyncEvent := none }]
        placeEntries := [{ id := "r1", name := "Firm One",
                           url := "https://one.example", status := some true }]
        metrics := CrmMetrics.zero
        durationSamples := 0
        workflowInvocations := []
        compensationsRun := 0 } =
      ({ companies := []
         placeEntries := [{ id := "r1", name := "Firm One",
                            url := "https://one.example", status := none }]
         metrics := { recordsProcessed := 1, recordsFailed := 0,
                      recordsSkipped := 1, recordsTimedOut := 0 }
         durationSamples := 1
         workflowInvocations := []
         compensationsRun := 0 }, true) := by
  have h := crm_disqualified_record_skip_path (fun _ => WorkflowOutcome.success)
    { companies := [{ id := "c1", name := "Firm One",
                      websiteUrl := "https://one.example",
                      emailAddress := some "a@b.example",
                      servicesOffered := [], crmSyncEvent := none }]
      placeEntries := [{ id := "r1", name := "Firm One",
                         url := "https://one.example", status := some true }]
      metrics := CrmMetrics.zero
      durationSamples := 0
      workflowInvocations := []
      compensationsRun := 0 }
    { id := "c1", name := "Firm One", websiteUrl := "https://one.example",
      emailAddress := some "a@b.example", servicesOffered := [], crmSyncEvent := none }
    (by decide) rfl
  rw [h.1]
  decide

theorem repeatSpaced_all_ok (cycle : Nat → Except String Unit)
    (h : ∀ j, cycle j = Except.ok ()) :
    ∀ n k, repeatSpaced cycle n k = (Except.ok (), k + n) := by
  intro n
  induction n with
  | zero =>
    intro k
    simp [repeatSpaced]
  | succ n ih =>
    intro k
    have hstep : repeatSpaced cycle (n + 1) k = repeatSpaced cycle n (k + 1) := by
      simp [repeatSpaced, h k]
    rw [hstep, ih (k + 1)]
    have harith : k + 1 + n = k + (n + 1) := by omega
    rw [harith]

theorem repeatSpaced_stops_at_error (cycle : Nat → Except String Unit)
    (kbad : Nat) (e : String)
    (hgood : ∀ j, j < kbad → cycle j = Except.ok ())
    (hbad : cycle kbad = Except.error e) :
    ∀ n k, k ≤ kbad → kbad < k + n →
      repeatSpaced cycle n k = (Except.error e, kbad + 1) := by
  intro n
  induction n with
  | zero =>
    intro k h1 h2
    omega
  | succ n ih =>
    intro k h1 h2
    by_cases hke : k = kbad
    · subst hke
      simp [repeatSpaced, hbad]
    · have hlt : k < kbad := by omega
      have hstep : repeatSpaced cycle (n + 1) k = repeatSpaced cycle n (k + 1) := by
        simp [repeatSpaced, hgood k hlt]
      rw [hstep]
      exact ih (k + 1) (by omega) (by omega)

/-- C9 counterexample: with a reporting cycle that errors on its first run
and three scheduled cycles, the reporter runs exactly one cycle: the error
stops the repetition (the catchAll sits outside Effect.repeat), the error
is logged, and no further cycle runs — reporting does not continue on
subsequent cycles. -/
theorem reporter_stops_after_cycle_error :
    metricsReporterRun failingFirstCycle 3 =
      (1, ["Metrics logging error: boom"]) := rfl

/-- C9 amended: the reporter logs a metrics snapshot on a 30-second spaced
schedule, concurrently with the processing loop; when a reporting cycle
errors, the error is caught by the catchAll outside the repeat and logged,
and the reporter ends without crashing the process — but the repetition
stops at the failing cycle rather than continuing on subsequent cycles; a
never-failing reporter runs all its scheduled cycles. -/
theorem metrics_reporter_error_stops_repetition
    (cycle : Nat → Except String Unit) (k n : Nat) (e : String)
    (hgood : ∀ j, j < k → cycle j = Except.ok ())
    (hbad : cycle k = Except.error e) (hkn : k < n) :
    metricsReportIntervalSeconds = 30 ∧
    metricsReporterRun cycle n = (k + 1, ["Metrics logging error: " ++ e]) ∧
    (∀ c2 : Nat → Except String Unit, (∀ j, c2 j = Except.ok ()) →
      metricsReporterRun c2 n = (n, [])) := by
  refine ⟨rfl, ?_, ?_⟩
  · unfold metricsReporterRun
    rw [repeatSpaced_stops_at_error cycle k e hgood hbad n 0 (by omega) (by omega)]
  · intro c2 hc2
    unfold metricsReporterRun
    rw [repeatSpaced_all_ok c2 hc2 n 0]
    simp

/-- Witness for the amended C9: a first-cycle error yields one executed
cycle and one logged error out of three scheduled cycles; an error-free
reporter runs all three. -/
theorem metrics_reporter_error_stops_repetition_witness :
    metricsReporterRun failingFirstCycle 3 = (1, ["Metrics logging error: boom"]) ∧
    metricsReporterRun (fun _ => Except.ok ()) 3 = (3, []) := by
  have h := metrics_reporter_error_stops_repetition failingFirstCycle 0 3 "boom"
    (fun j hj => absurd hj (by omega)) rfl (by omega)
  exact ⟨h.2.1, h.2.2 (fun _ => Except.ok ()) (fun _ => rfl)⟩

theorem processOneRecord_success (outcome : PlaceEntry → WorkflowOutcome)
    (st : LoopState) (r : PlaceEntry)
    (hfind : findNextUnclaimed st.db = some r)
    (hs : outcome r = WorkflowOutcome.success) :
    processOneRecord outcome st =
      ({ db := updateStatus st.db r.id true
         metrics := { st.metrics with
           recordsProcessed := st.metrics.recordsProcessed + 1 }
         durationSamples := st.durationSamples + 1 }, true) := by
  unfold processOneRecord
  rw [fetchNextRecord_const_found st.db r hfind]
  simp [hs]

/-- C10: when the data extracted by the ScrapeWebsite activity has an empty
servicesOffered list or a telephoneNumber containing the substring "+1",
the activity returns early and successfully without creating any company
record; because the activity succeeds the workflow succeeds, and the
processing loop marks the backlog record status = true even though no
derived record exists for it. -/
theorem scrape_disqualified_early_return_still_marks_success
    (p : WsPayload) (data : ExtractedData) (companies : List Company)
    (hdq : data.servicesOffered.length = 0 ∨
      stringIncludes data.telephoneNumber "+1" = true)
    (st : LoopState) (r : PlaceEntry)
    (hfind : findNextUnclaimed st.db = some r) :
    (scrapeWebsiteFinish p data companies).1 = companies ∧
    (scrapeWebsiteFinish p data companies).2 = Except.ok none ∧
    workflowOutcomeOf (scrapeWebsiteFinish p data companies).2 =
      WorkflowOutcome.success ∧
    processOneRecord
      (fun _ => workflowOutcomeOf (scrapeWebsiteFinish p data companies).2) st =
      ({ db := updateStatus st.db r.id true
         metrics := { st.metrics with
           recordsProcessed := st.metrics.recordsProcessed + 1 }
         durationSamples := st.durationSamples + 1 }, true) ∧
    (∀ pe ∈ updateStatus st.db r.id true, pe.id = r.id → pe.status = some true) := by
  have h1 : scrapeWebsiteFinish p data companies = (companies, Except.ok none) := by
    unfold scrapeWebsiteFinish
    rcases hdq with h | h
    · rw [if_pos (by simp [h])]
    · rw [if_pos (by simp [h])]
  refine ⟨by rw [h1], by rw [h1], by rw [h1]; rfl, ?_, ?_⟩
  · exact processOneRecord_success _ st r hfind (by rw [h1]; rfl)
  · intro pe hpe hid
    simp only [updateStatus, List.mem_map] at hpe
    obtain ⟨x, hx, hxe⟩ := hpe
    by_cases hc : x.id = r.id
    · rw [if_pos hc] at hxe
      rw [← hxe]
    · rw [if_neg hc] at hxe
      subst hxe
      exact absurd hid hc

/-- Witness for C10: a record whose extraction yields a "+1" telephone
number is marked status = true while no company is created. -/
theorem scrape_disqualified_early_return_still_marks_success_witness :
    (scrapeWebsiteFinish
      { id := "r9", name := some "Firm Nine", url := "https://nine.example",
        address := none, phone := none, location := "NYC" }
      { emailAddress := none, telephoneNumber := "+1 212 555 0100",
        address := "NYC", servicesOffered := ["Family Law"] }
      []).1 = [] ∧
    processOneRecord
      (fun _ => workflowOutcomeOf (scrapeWebsiteFinish
        { id := "r9", name := some "Firm Nine", url := "https://nine.example",
          address := none, phone := none, location := "NYC" }
        { emailAddress := none, telephoneNumber := "+1 212 555 0100",
          address := "NYC", servicesOffered := ["Family Law"] }
        []).2)
      { db := [{ id := "r9", name := "Firm Nine", url := "https://nine.example",
                 status := none }]
        metrics := Metrics.zero
        durationSamples := 0 } =
      ({ db := updateStatus
           [{ id := "r9", name := "Firm Nine", url := "https://nine.example",
              status := none }] "r9" true
         metrics := { recordsProcessed := 1, recordsFailed := 0, recordsTimedOut := 0 }
         durationSamples := 1 }, true) := by
  have h := scrape_disqualified_early_return_still_marks_success
    { id := "r9", name := some "Firm Nine", url := "https://nine.example",
      address := none, phone := none, location := "NYC" }
    { emailAddress := none, telephoneNumber := "+1 212 555 0100",
      address := "NYC", servicesOffered := ["Family Law"] }
    [] (Or.inr (by decide))
    { db := [{ id := "r9", name := "Firm Nine", url := "https://nine.example",
               status := none }]
      metrics := Metrics.zero
      durationSamples := 0 }
    { id := "r9", name := "Firm Nine", url := "https://nine.example", status := none }
    (by decide)
  exact ⟨h.1, h.2.2.2.1⟩

end LawfirmPipeline
